import Mathlib

/-!
Verification of the bulk product-import core of the E-commerce CRUD
application (`src/routes/productRoutes.js`, function `processProducts` and
the column-map construction in the upload route).

The JavaScript code is shallowly embedded: spreadsheet cell values become an
inductive `CellValue`, JavaScript numbers are idealised as exact rationals
(`ℚ`; the claims under study do not depend on binary floating-point
rounding), the `NaN` sentinel produced by a failed `parseFloat`/`parseInt`
is `Option.none`, and the PostgreSQL transaction is an explicit store with a
committed table and a pending (uncommitted) buffer.  `COMMIT` moves the
pending buffer into the committed table; `ROLLBACK` discards the pending
buffer; a `ROLLBACK` issued when no transaction work is pending (as happens
on the source's commit-then-throw path, line 381/399) is a no-op on the
committed table, exactly as in PostgreSQL.
-/

/-- A category row as returned by `SELECT * FROM category`. -/
structure Category where
  category_id : Nat
  category_name : String
deriving DecidableEq, Repr

/-- A product row as inserted by
`INSERT INTO products (product_name, category_id, price, stock)`.
`price` and `stock` hold the JavaScript numbers passed to the query. -/
structure ProductRow where
  product_name : String
  category_id : Nat
  price : ℚ
  stock : ℚ
deriving DecidableEq, Repr

/-- The persistent store seen by one import: the committed `products` table
and the pending inserts of the currently open transaction. -/
structure Store where
  committed : List ProductRow
  pending : List ProductRow
deriving DecidableEq, Repr

/-- `COMMIT`: pending inserts become durable. -/
def commitTx (st : Store) : Store :=
  { committed := st.committed ++ st.pending, pending := [] }

/-- `ROLLBACK`: pending inserts are discarded; committed rows are untouched
(in particular a `ROLLBACK` after a `COMMIT` leaves the store unchanged,
as in PostgreSQL where it merely warns that no transaction is open). -/
def rollbackTx (st : Store) : Store :=
  { committed := st.committed, pending := [] }

/-- A spreadsheet cell value as produced by `xlsx.utils.sheet_to_json`:
a number, a string, a boolean, or absent (`undefined`). -/
inductive CellValue where
  | num (q : ℚ)
  | str (s : String)
  | boolv (b : Bool)
  | empty
deriving DecidableEq, Repr

/-- JavaScript truthiness of a cell value: `0`, `""`, `false` and
`undefined` are falsy. -/
def jsTruthy : CellValue → Bool
  | CellValue.num q => decide (q ≠ 0)
  | CellValue.str s => decide (s ≠ "")
  | CellValue.boolv b => b
  | CellValue.empty => false

/-- JavaScript `v || d`: the first operand if truthy, else the second. -/
def jsOr (v d : CellValue) : CellValue :=
  if jsTruthy v then v else d

/-- Rendering of a JavaScript number by `String(...)`.  Integral values
match JavaScript exactly; non-integral rationals are rendered as
`num/den`, an approximation of JavaScript's shortest-round-trip decimal
form (no claim nor witness evaluates this branch). -/
def jsNumToString (q : ℚ) : String :=
  if q.den = 1 then
    (if q.num < 0 then "-" ++ toString q.num.natAbs else toString q.num.natAbs)
  else
    toString q.num ++ "/" ++ toString q.den

/-- JavaScript `String(v)` on a cell value. -/
def jsToString : CellValue → String
  | CellValue.num q => jsNumToString q
  | CellValue.str s => s
  | CellValue.boolv b => if b then "true" else "false"
  | CellValue.empty => "undefined"

/-- JavaScript `s || d` on strings: `s` if non-empty, else `d`. -/
def jsOrStr (s d : String) : String :=
  if s = "" then d else s

/-- JavaScript `.trim()`: drop leading and trailing whitespace (ASCII
whitespace; the JS Unicode whitespace set is approximated by
`Char.isWhitespace`). -/
def jsTrim (s : String) : String :=
  String.mk
    (((s.toList.dropWhile Char.isWhitespace).reverse.dropWhile
        Char.isWhitespace).reverse)

/-- JavaScript `.toLowerCase()` (ASCII case mapping). -/
def jsToLower (s : String) : String :=
  String.mk (s.toList.map Char.toLower)

/-- A data row: a map from raw column-header string to cell value
(absent columns read as `undefined`). -/
def Row : Type := String → CellValue

/-- `obj[k]` where `k` may be `undefined` (an absent column-map entry):
indexing with `undefined` yields `undefined`. -/
def rowGet (row : Row) (k : Option String) : CellValue :=
  match k with
  | some h => row h
  | none => CellValue.empty

/-- Header normalization used when building `columnMap`:
`col.trim().toLowerCase()`. -/
def normalizeHeader (s : String) : String :=
  jsToLower (jsTrim s)

/-- The upload route's `columnMap` built by
`availableColumns.forEach(col => { columnMap[col.trim().toLowerCase()] = col })`:
successive assignments to the same normalized key overwrite, so the value
retained for a key is the one from the latest matching column. -/
def columnMapOf (headers : List String) (key : String) : Option String :=
  headers.foldl
    (fun acc col => if normalizeHeader col = key then some col else acc) none

/-- Digit-sequence value, most significant first. -/
def digitsVal (l : List Char) : Nat :=
  l.foldl (fun a c => 10 * a + (c.toNat - Char.toNat '0')) 0

/-- Unsigned part of JavaScript `parseFloat`: longest prefix of the form
`digits [. digits]` with at least one digit; `none` means `NaN`.  Exponent
forms cannot arise here because every input has already been stripped to
the alphabet `[0-9.-]`. -/
def parseFloatCore (l : List Char) : Option ℚ :=
  let d1 := l.takeWhile Char.isDigit
  let r1 := l.dropWhile Char.isDigit
  match r1 with
  | '.' :: r2 =>
    let d2 := r2.takeWhile Char.isDigit
    if d1.isEmpty ∧ d2.isEmpty then none
    else some ((digitsVal d1 : ℚ) + (digitsVal d2 : ℚ) / (10 : ℚ) ^ d2.length)
  | _ => if d1.isEmpty then none else some (digitsVal d1 : ℚ)

/-- JavaScript `parseFloat`: skip leading whitespace, optional sign, then
the longest decimal prefix; `none` models the `NaN` result. -/
def jsParseFloat (s : String) : Option ℚ :=
  match s.toList.dropWhile Char.isWhitespace with
  | '-' :: r => (parseFloatCore r).map (fun q => -q)
  | '+' :: r => parseFloatCore r
  | r => parseFloatCore r

/-- Unsigned part of JavaScript `parseInt` (radix 10; a `0x` prefix cannot
arise after stripping to `[0-9-]`): longest digit prefix, `none` is `NaN`. -/
def parseIntCore (l : List Char) : Option Int :=
  let d := l.takeWhile Char.isDigit
  if d.isEmpty then none else some (digitsVal d : Int)

/-- JavaScript `parseInt` with no radix argument, on the stripped strings
this import produces. -/
def jsParseInt (s : String) : Option Int :=
  match s.toList.dropWhile Char.isWhitespace with
  | '-' :: r => (parseIntCore r).map (fun i => -i)
  | '+' :: r => parseIntCore r
  | r => parseIntCore r

/-- `.replace(/[^\d.-]/g, '')`: keep only digits, `.` and `-`. -/
def stripPrice (s : String) : String :=
  String.mk (s.toList.filter (fun c => c.isDigit ∨ c = '.' ∨ c = '-'))

/-- `.replace(/[^\d-]/g, '')`: keep only digits and `-`. -/
def stripStock (s : String) : String :=
  String.mk (s.toList.filter (fun c => c.isDigit ∨ c = '-'))

/-- `getProductName`: `String(product[columnMap['product_name']] || '').trim()`. -/
def getProductName (cm : String → Option String) (row : Row) : String :=
  jsTrim (jsToString (jsOr (rowGet row (cm "product_name")) (CellValue.str "")))

/-- `getCategoryName`: `String(product[columnMap['category_name']] || '').trim()`. -/
def getCategoryName (cm : String → Option String) (row : Row) : String :=
  jsTrim (jsToString (jsOr (rowGet row (cm "category_name")) (CellValue.str "")))

/-- `getPrice`: a numeric cell is used as-is; otherwise the string
representation is stripped to `[0-9.-]`, an empty result becomes `"0"`,
and the remainder is fed to `parseFloat`.  `none` is the `NaN` sentinel. -/
def getPrice (cm : String → Option String) (row : Row) : Option ℚ :=
  match rowGet row (cm "price") with
  | CellValue.num q => some q
  | v => jsParseFloat (jsOrStr (stripPrice (jsToString v)) "0")

/-- `getStock`: a numeric cell is used as-is; otherwise the string
representation is stripped to `[0-9-]`, an empty result becomes `"0"`,
and the remainder is fed to `parseInt`.  `none` is the `NaN` sentinel. -/
def getStock (cm : String → Option String) (row : Row) : Option ℚ :=
  match rowGet row (cm "stock") with
  | CellValue.num q => some q
  | v => (jsParseInt (jsOrStr (stripStock (jsToString v)) "0")).map (fun i => (i : ℚ))

/-- The four per-row extracted values. -/
structure Extracted where
  productName : String
  categoryName : String
  price : Option ℚ
  stock : Option ℚ
deriving DecidableEq, Repr

/-- Field extraction for one row via the four accessor helpers. -/
def extractRecord (cm : String → Option String) (row : Row) : Extracted :=
  { productName := getProductName cm row
    categoryName := getCategoryName cm row
    price := getPrice cm row
    stock := getStock cm row }

/-- `isNaN(price) || price <= 0`. -/
def priceBad : Option ℚ → Bool
  | none => true
  | some p => decide (p ≤ 0)

/-- `isNaN(stock) || stock < 0`. -/
def stockBad : Option ℚ → Bool
  | none => true
  | some p => decide (p < 0)

/-- JavaScript falsiness of `categoryMap[name]`: `undefined` or the id `0`
(an id of `0` would be numerically falsy, a quirk kept by the embedding). -/
def jsFalsyNat : Option Nat → Bool
  | none => true
  | some n => decide (n = 0)

/-- JavaScript falsiness of `columnMap[field]`: `undefined` or `""`. -/
def jsFalsyStr : Option String → Bool
  | none => true
  | some s => decide (s = "")

/-- `categoryMap` built by
`categories.forEach(cat => { categoryMap[cat.category_name.toLowerCase()] = cat.category_id })`:
later assignments to the same lowercased name overwrite earlier ones. -/
def buildCategoryMap (categories : List Category) (key : String) : Option Nat :=
  categories.foldl
    (fun acc c => if jsToLower c.category_name = key then some c.category_id else acc)
    none

/-- `', '`-joined list of every existing category name, as used in the
unresolved-category error message. -/
def categoryNames (categories : List Category) : String :=
  String.intercalate ", " (categories.map (fun c => c.category_name))

/-- The literal error for a category name that does not resolve:
names the offending category and enumerates all existing category names. -/
def categoryErrMsg (name : String) (categories : List Category) : String :=
  "Category \"" ++ name ++ "\" does not exist. Available categories: "
    ++ categoryNames categories

/-- The four validation checks of the row loop (lines 336-357), in source
order, short-circuiting at the first failure (`continue`), so each row
yields at most one error.  `none` means the row passed all checks. -/
def validateRow (categories : List Category) (categoryMap : String → Option Nat)
    (rec : Extracted) : Option String :=
  if rec.productName = "" ∨ rec.categoryName = "" then
    some "Missing product_name or category_name"
  else if priceBad rec.price then
    some "Price must be a number greater than 0"
  else if stockBad rec.stock then
    some "Stock must be a number greater than or equal to 0"
  else if jsFalsyNat (categoryMap (jsToLower rec.categoryName)) then
    some (categoryErrMsg rec.categoryName categories)
  else
    none

/-- The record actually inserted for a row that passed validation. -/
def resolvedRecord (categoryMap : String → Option Nat) (rec : Extracted) :
    ProductRow :=
  { product_name := rec.productName
    category_id := (categoryMap (jsToLower rec.categoryName)).getD 0
    price := rec.price.getD 0
    stock := rec.stock.getD 0 }

/-- Outcome of one loop iteration before the `Row N:` prefix is attached:
a validation error, or (for a validated row) a database error reported by
the environment oracle `dbErr` for that row index, or success (`none`).
`dbErr` models `client.query('INSERT ...')` throwing. -/
def rowSuffix (categories : List Category) (categoryMap : String → Option Nat)
    (cm : String → Option String) (dbErr : Nat → Option String)
    (i : Nat) (row : Row) : Option String :=
  match validateRow categories categoryMap (extractRecord cm row) with
  | some e => some e
  | none => (dbErr i).map (fun m => "Database error: " ++ m)

/-- The validation-and-insert loop (lines 323-375), started at row index
`k`: returns the ordered error strings (each prefixed `Row (i+2): `) and
the ordered list of successfully inserted records. -/
def processRowsAux (categories : List Category)
    (categoryMap : String → Option Nat) (cm : String → Option String)
    (dbErr : Nat → Option String) : Nat → List Row → List String × List ProductRow
  | _, [] => ([], [])
  | k, row :: rest =>
    let r := processRowsAux categories categoryMap cm dbErr (k + 1) rest
    match rowSuffix categories categoryMap cm dbErr k row with
    | some s => (("Row " ++ toString (k + 2) ++ ": " ++ s) :: r.1, r.2)
    | none => (r.1, resolvedRecord categoryMap (extractRecord cm row) :: r.2)

/-- The full row loop over the data rows, indices starting at 0
(`rowNum = i + 2`). -/
def processRows (categories : List Category)
    (categoryMap : String → Option Nat) (cm : String → Option String)
    (dbErr : Nat → Option String) (products : List Row) :
    List String × List ProductRow :=
  processRowsAux categories categoryMap cm dbErr 0 products

/-- `requiredFields` of the import. -/
def requiredFields : List String :=
  ["product_name", "category_name", "price", "stock"]

/-- The `missingFields` accumulation: required fields whose `columnMap`
entry is falsy, in `requiredFields` order. -/
def missingFields (cm : String → Option String) : List String :=
  requiredFields.filter (fun f => jsFalsyStr (cm f))

/-- `'No categories found in the database. Please add categories first.'` -/
def noCategoriesMsg : String :=
  "No categories found in the database. Please add categories first."

/-- The `Missing required columns` error text. -/
def missingColumnsMsg (missing : List String) : String :=
  "Missing required columns: " ++ String.intercalate ", " missing
    ++ ". Please ensure your Excel has these exact columns (spaces are trimmed)."

/-- The aggregate error thrown after a partial success (line 382). -/
def partialMsg (processedCount : Nat) (errors : List String) : String :=
  "Uploaded " ++ toString processedCount ++ " products with "
    ++ toString errors.length ++ " errors: " ++ String.intercalate "; " errors

/-- The aggregate error thrown when every row errored (line 388). -/
def noValidMsg (errors : List String) : String :=
  "No valid products found. Errors: " ++ String.intercalate "; " errors

/-- The success message (line 395). -/
def successMsg (processedCount : Nat) : String :=
  "Successfully uploaded " ++ toString processedCount ++ " products"

/-- The report object returned on full success:
`{ success: true, message: ... }`. -/
structure Report where
  success : Bool
  message : String
deriving DecidableEq, Repr

instance {ε α : Type} [DecidableEq ε] [DecidableEq α] : DecidableEq (Except ε α) :=
  fun x y =>
    match x, y with
    | Except.error a, Except.error b =>
      if h : a = b then Decidable.isTrue (by rw [h])
      else Decidable.isFalse (by intro hh; injection hh; contradiction)
    | Except.error _, Except.ok _ => Decidable.isFalse (fun hh => Except.noConfusion hh)
    | Except.ok _, Except.error _ => Decidable.isFalse (fun hh => Except.noConfusion hh)
    | Except.ok a, Except.ok b =>
      if h : a = b then Decidable.isTrue (by rw [h])
      else Decidable.isFalse (by intro hh; injection hh; contradiction)

/-- `processProducts(products, columnMap)` (lines 271-404).  The category
snapshot (`SELECT * FROM category`) is the `categories` argument; `dbErr`
is the environment oracle for per-insert database failures; `st0` is the
store on entry.  Every thrown error passes through the `catch` block,
which issues a `ROLLBACK` before rethrowing; the commit-then-throw path
of the partial-success branch therefore commits first and the later
rollback finds nothing pending. -/
def processProducts (categories : List Category) (products : List Row)
    (cm : String → Option String) (dbErr : Nat → Option String)
    (st0 : Store) : Except String Report × Store :=
  let st : Store := { committed := st0.committed, pending := [] }
  if categories.length = 0 then
    (Except.error noCategoriesMsg, rollbackTx st)
  else if 0 < (missingFields cm).length then
    (Except.error (missingColumnsMsg (missingFields cm)), rollbackTx st)
  else
    let categoryMap := buildCategoryMap categories
    let res := processRows categories categoryMap cm dbErr products
    let st1 : Store := { committed := st.committed, pending := res.2 }
    if 0 < res.1.length ∧ 0 < res.2.length then
      (Except.error (partialMsg res.2.length res.1), rollbackTx (commitTx st1))
    else if products.length = res.1.length then
      (Except.error (noValidMsg res.1), rollbackTx (rollbackTx st1))
    else
      (Except.ok { success := true, message := successMsg res.2.length },
        commitTx st1)

/-- Modelled from the spec (§4.4 RowValidator): the four checks in fixed
order — empty `product_name` or `category_name`; price not-a-number or
`≤ 0`; stock not-a-number or `< 0`; category name that the resolver does
not resolve (`isNone`) — short-circuiting at the first failure, the
unresolved-category error naming the category and enumerating every
existing category name. -/
def specValidate (resolve : String → Option Nat) (categories : List Category)
    (rec : Extracted) : Option String :=
  if rec.productName = "" ∨ rec.categoryName = "" then
    some "Missing product_name or category_name"
  else if priceBad rec.price then
    some "Price must be a number greater than 0"
  else if stockBad rec.stock then
    some "Stock must be a number greater than or equal to 0"
  else if (resolve (jsToLower rec.categoryName)).isNone then
    some (categoryErrMsg rec.categoryName categories)
  else
    none

/-- Fixture: a category store holding the single category `Tools`. -/
def wCats : List Category := [{ category_id := 1, category_name := "Tools" }]

/-- Fixture: a column map binding all four required fields. -/
def wCm : String → Option String
  | "product_name" => some "Product Name"
  | "category_name" => some "Category Name"
  | "price" => some "Price"
  | "stock" => some "Stock"
  | _ => none

/-- Fixture: a column map whose `stock` column is absent. -/
def wCmNoStock : String → Option String
  | "product_name" => some "Product Name"
  | "category_name" => some "Category Name"
  | "price" => some "Price"
  | _ => none

/-- Fixture: a fully valid data row. -/
def wRowGood : Row := fun h =>
  if h = "Product Name" then CellValue.str "Widget"
  else if h = "Category Name" then CellValue.str "Tools"
  else if h = "Price" then CellValue.str "10"
  else if h = "Stock" then CellValue.str "5"
  else CellValue.empty

/-- Fixture: a data row whose price is the invalid string `"-1"`. -/
def wRowBadPrice : Row := fun h =>
  if h = "Product Name" then CellValue.str "Gadget"
  else if h = "Category Name" then CellValue.str "Tools"
  else if h = "Price" then CellValue.str "-1"
  else if h = "Stock" then CellValue.str "5"
  else CellValue.empty

/-- Fixture: a data row whose product name cell is the number `0`
(falsy) and whose other fields are valid. -/
def wRowZeroName : Row := fun h =>
  if h = "Product Name" then CellValue.num 0
  else if h = "Category Name" then CellValue.str "Tools"
  else if h = "Price" then CellValue.str "10"
  else if h = "Stock" then CellValue.str "5"
  else CellValue.empty

/-- Fixture: a data row with decorated numeric strings for price/stock. -/
def wRowPriceStr : Row := fun h =>
  if h = "Product Name" then CellValue.str "Widget"
  else if h = "Category Name" then CellValue.str "Tools"
  else if h = "Price" then CellValue.str "$15 usd"
  else if h = "Stock" then CellValue.str " 7 pcs"
  else CellValue.empty

/-- Fixture: the environment oracle under which no insert fails. -/
def wDbOk : Nat → Option String := fun _ => none

/-- Fixture: the empty store. -/
def wStore : Store := { committed := [], pending := [] }

/-- A foldl that overwrites its accumulator at every element satisfying the
predicate keeps the value from the last such element: it equals a first
match on the reversed list. -/
theorem foldl_overwrite {α β : Type} (p : α → Prop) [DecidablePred p] (g : α → β) :
    ∀ (l : List α) (acc : Option β),
      l.foldl (fun a x => if p x then some (g x) else a) acc =
        match l.reverse.find? (fun x => decide (p x)) with
        | some x => some (g x)
        | none => acc := by
  intro l
  induction l with
  | nil => intro acc; rfl
  | cons x xs ih =>
    intro acc
    rw [List.foldl_cons, ih]
    rw [List.reverse_cons, List.find?_append]
    cases hfind : xs.reverse.find? (fun x => decide (p x)) with
    | some y => simp [hfind, Option.or]
    | none =>
      simp only [hfind, Option.or]
      by_cases hp : p x
      · simp [List.find?, hp]
      · simp [List.find?, hp]

/-- Each loop iteration contributes exactly one of an error entry or an
inserted record, so the two output lengths sum to the row count. -/
theorem processRowsAux_length (categories : List Category)
    (categoryMap : String → Option Nat) (cm : String → Option String)
    (dbErr : Nat → Option String) :
    ∀ (l : List Row) (k : Nat),
      (processRowsAux categories categoryMap cm dbErr k l).1.length
        + (processRowsAux categories categoryMap cm dbErr k l).2.length
        = l.length := by
  intro l
  induction l with
  | nil => intro k; rfl
  | cons x xs ih =>
    intro k
    have hx := ih (k + 1)
    cases h : rowSuffix categories categoryMap cm dbErr k x <;>
      simp only [processRowsAux, h, List.length_cons] <;> omega

/-- C3 counterexample: the raw headers `"Price"` and `"PRICE "` are
distinct and both normalize to the key `price`, yet the column map built
by the upload route binds `price` to the second (last) header, not to the
first one as the claim states. -/
theorem c3_counterexample :
    normalizeHeader "Price" = "price"
    ∧ normalizeHeader "PRICE " = "price"
    ∧ ("Price" : String) ≠ "PRICE "
    ∧ columnMapOf ["Price", "PRICE "] "price" = some "PRICE "
    ∧ columnMapOf ["Price", "PRICE "] "price" ≠ some "Price" := by
  refine ⟨by decide, by decide, by decide, by decide, by decide⟩

/-- C3 amended: when several raw headers normalize to the same key, the
column map binds that key to the LAST such header in column order (the
first match in the reversed header list); each later `forEach` assignment
overwrites the earlier one. -/
theorem c3_last_duplicate_header_wins (headers : List String) (key : String) :
    columnMapOf headers key
      = headers.reverse.find? (fun h => decide (normalizeHeader h = key)) := by
  unfold columnMapOf
  rw [foldl_overwrite (fun col => normalizeHeader col = key) (fun col => col) headers none]
  cases hfind : headers.reverse.find? (fun h => decide (normalizeHeader h = key)) <;> simp [hfind]

/-- C3 amended, witness at a concrete duplicate-header list. -/
theorem c3_witness :
    columnMapOf ["Price", "PRICE "] "price"
      = (["Price", "PRICE "]).reverse.find? (fun h => decide (normalizeHeader h = "price")) :=
  c3_last_duplicate_header_wins ["Price", "PRICE "] "price"

/-- C6: against an empty category snapshot the import fails with the
no-categories error, the store keeps exactly its previously committed
rows (zero rows inserted), and the outcome is independent of the data
rows — no row is validated or inserted. -/
theorem c6_empty_snapshot_fails (products : List Row) (cm : String → Option String)
    (dbErr : Nat → Option String) (st : Store) :
    processProducts [] products cm dbErr st
      = (Except.error noCategoriesMsg, { committed := st.committed, pending := [] })
    ∧ ∀ products' : List Row,
        processProducts [] products' cm dbErr st
          = processProducts [] products cm dbErr st := by
  constructor
  · rfl
  · intro products'; rfl

/-- C6 witness at a concrete input. -/
theorem c6_witness :
    processProducts [] [wRowGood] wCm wDbOk wStore
      = (Except.error noCategoriesMsg, { committed := [], pending := [] })
    ∧ ∀ products' : List Row,
        processProducts [] products' wCm wDbOk wStore
          = processProducts [] [wRowGood] wCm wDbOk wStore :=
  c6_empty_snapshot_fails [wRowGood] wCm wDbOk wStore

/-- C9: with zero data rows (non-empty snapshot, no missing columns) the
coordinator does not return a success report: the error count (zero)
equals the row count (zero), so the all-rows-errored branch rolls back
and fails with the aggregate no-valid-products error over an empty error
list. -/
theorem c9_zero_rows_not_success (categories : List Category)
    (cm : String → Option String) (dbErr : Nat → Option String) (st : Store)
    (hcat : categories ≠ []) (hmiss : missingFields cm = []) :
    processProducts categories [] cm dbErr st
      = (Except.error (noValidMsg []), { committed := st.committed, pending := [] })
    ∧ noValidMsg [] = "No valid products found. Errors: " := by
  constructor
  · unfold processProducts
    rw [if_neg (fun h => hcat (List.length_eq_zero.mp h))]
    rw [if_neg (by simp [hmiss])]
    rfl
  · rfl

/-- C9 witness at a concrete input. -/
theorem c9_witness :
    processProducts wCats [] wCm wDbOk wStore
      = (Except.error (noValidMsg []), { committed := [], pending := [] })
    ∧ noValidMsg [] = "No valid products found. Errors: " :=
  c9_zero_rows_not_success wCats wCm wDbOk wStore (by decide) (by decide)

/-- C1: when row processing produced at least one inserted row and at
least one row error, the coordinator commits (the inserted rows become
part of the committed table) and then fails with the aggregate error
carrying the success count and the full ordered error list; the rollback
issued by the failure path afterwards finds nothing pending, so the
committed rows are kept. -/
theorem c1_partial_success_commits_then_fails (categories : List Category)
    (products : List Row) (cm : String → Option String)
    (dbErr : Nat → Option String) (st : Store)
    (hcat : categories ≠ []) (hmiss : missingFields cm = [])
    (herr : (processRows categories (buildCategoryMap categories) cm dbErr products).1 ≠ [])
    (hins : (processRows categories (buildCategoryMap categories) cm dbErr products).2 ≠ []) :
    processProducts categories products cm dbErr st
      = (Except.error
          (partialMsg
            (processRows categories (buildCategoryMap categories) cm dbErr products).2.length
            (processRows categories (buildCategoryMap categories) cm dbErr products).1),
         { committed :=
             st.committed
               ++ (processRows categories (buildCategoryMap categories) cm dbErr products).2,
           pending := [] }) := by
  unfold processProducts
  rw [if_neg (fun h => hcat (List.length_eq_zero.mp h))]
  rw [if_neg (by simp [hmiss])]
  rw [if_pos ⟨List.length_pos.mpr herr, List.length_pos.mpr hins⟩]
  rfl

/-- C1 witness: two rows, the first valid, the second with price `-1`;
the valid row is committed and kept while the import fails. -/
theorem c1_witness :
    processProducts wCats [wRowGood, wRowBadPrice] wCm wDbOk wStore
      = (Except.error
          (partialMsg
            (processRows wCats (buildCategoryMap wCats) wCm wDbOk [wRowGood, wRowBadPrice]).2.length
            (processRows wCats (buildCategoryMap wCats) wCm wDbOk [wRowGood, wRowBadPrice]).1),
         { committed :=
             [] ++ (processRows wCats (buildCategoryMap wCats) wCm wDbOk [wRowGood, wRowBadPrice]).2,
           pending := [] }) :=
  c1_partial_success_commits_then_fails wCats [wRowGood, wRowBadPrice] wCm wDbOk wStore
    (by decide) (by decide) (by decide) (by decide)

/-- C2 counterexample: an import whose header map lacks all four required
keys, taken against an EMPTY category store, fails with the
no-categories error and not with the missing-columns error — the claim's
"regardless of the contents of the category store" is false because the
empty-snapshot check runs first. -/
theorem c2_counterexample :
    missingFields (fun _ => none) = requiredFields
    ∧ processProducts [] [wRowGood] (fun _ => none) wDbOk wStore
        = (Except.error noCategoriesMsg, { committed := [], pending := [] })
    ∧ noCategoriesMsg ≠ missingColumnsMsg requiredFields := by
  refine ⟨by decide, by decide, by decide⟩

/-- C2 amended: for a NON-EMPTY category snapshot, whenever the header
map lacks any required key the import fails with the missing-columns
error listing exactly the absent keys (in required-field order), the
store keeps exactly its previously committed rows (zero insertions), and
the outcome is independent of the data rows — no row is processed. -/
theorem c2_missing_columns (categories : List Category) (products : List Row)
    (cm : String → Option String) (dbErr : Nat → Option String) (st : Store)
    (hcat : categories ≠ []) (hmiss : missingFields cm ≠ []) :
    processProducts categories products cm dbErr st
      = (Except.error (missingColumnsMsg (missingFields cm)),
         { committed := st.committed, pending := [] })
    ∧ (∀ f, f ∈ missingFields cm ↔ f ∈ requiredFields ∧ jsFalsyStr (cm f) = true)
    ∧ ∀ products' : List Row,
        processProducts categories products' cm dbErr st
          = processProducts categories products cm dbErr st := by
  have hbranch : ∀ ps : List Row,
      processProducts categories ps cm dbErr st
        = (Except.error (missingColumnsMsg (missingFields cm)),
           { committed := st.committed, pending := [] }) := by
    intro ps
    unfold processProducts
    rw [if_neg (fun h => hcat (List.length_eq_zero.mp h))]
    rw [if_pos (List.length_pos.mpr hmiss)]
    rfl
  refine ⟨hbranch products, ?_, ?_⟩
  · intro f
    simp [missingFields, List.mem_filter]
  · intro products'
    rw [hbranch products', hbranch products]

/-- C2 amended witness: the `stock` column is absent, one category
exists; the import fails listing exactly `stock`. -/
theorem c2_witness :
    processProducts wCats [wRowGood] wCmNoStock wDbOk wStore
      = (Except.error (missingColumnsMsg (missingFields wCmNoStock)),
         { committed := [], pending := [] })
    ∧ (∀ f, f ∈ missingFields wCmNoStock ↔ f ∈ requiredFields ∧ jsFalsyStr (wCmNoStock f) = true)
    ∧ ∀ products' : List Row,
        processProducts wCats products' wCmNoStock wDbOk wStore
          = processProducts wCats [wRowGood] wCmNoStock wDbOk wStore :=
  c2_missing_columns wCats [wRowGood] wCmNoStock wDbOk wStore (by decide) (by decide)

/-- C5: when every row succeeded (no row errors), the coordinator commits
the inserted rows and returns the success report, whose `success` flag is
`true` and whose message carries the processed count; the error list is
empty and the processed count equals the row count. -/
theorem c5_all_success_report (categories : List Category) (products : List Row)
    (cm : String → Option String) (dbErr : Nat → Option String) (st : Store)
    (hcat : categories ≠ []) (hmiss : missingFields cm = []) (hne : products ≠ [])
    (hnoerr : (processRows categories (buildCategoryMap categories) cm dbErr products).1 = []) :
    processProducts categories products cm dbErr st
      = (Except.ok
          { success := true,
            message := successMsg
              (processRows categories (buildCategoryMap categories) cm dbErr products).2.length },
         { committed :=
             st.committed
               ++ (processRows categories (buildCategoryMap categories) cm dbErr products).2,
           pending := [] })
    ∧ (processRows categories (buildCategoryMap categories) cm dbErr products).2.length
        = products.length := by
  have hlen := processRowsAux_length categories (buildCategoryMap categories) cm dbErr products 0
  have hlen2 : (processRows categories (buildCategoryMap categories) cm dbErr products).2.length
      = products.length := by
    unfold processRows at hnoerr ⊢
    rw [hnoerr] at hlen
    simpa using hlen
  refine ⟨?_, hlen2⟩
  unfold processProducts
  rw [if_neg (fun h => hcat (List.length_eq_zero.mp h))]
  rw [if_neg (by simp [hmiss])]
  rw [if_neg (by rw [hnoerr]; simp)]
  rw [if_neg (by
    rw [hnoerr]
    simpa using fun h => hne (List.length_eq_zero.mp h))]
  rfl

/-- C5 witness: a single fully valid row commits and yields the success
report. -/
theorem c5_witness :
    processProducts wCats [wRowGood] wCm wDbOk wStore
      = (Except.ok
          { success := true,
            message := successMsg
              (processRows wCats (buildCategoryMap wCats) wCm wDbOk [wRowGood]).2.length },
         { committed := [] ++ (processRows wCats (buildCategoryMap wCats) wCm wDbOk [wRowGood]).2,
           pending := [] })
    ∧ (processRows wCats (buildCategoryMap wCats) wCm wDbOk [wRowGood]).2.length
        = ([wRowGood] : List Row).length :=
  c5_all_success_report wCats [wRowGood] wCm wDbOk wStore
    (by decide) (by decide) (List.cons_ne_nil _ _) (by decide)

/-- When every row of the remaining list yields a row error, the loop
inserts nothing, produces one error per row, and the error at position
`j` (with the loop started at index `k`) carries display row number
`k + j + 2`. -/
theorem processRowsAux_all_error (categories : List Category)
    (categoryMap : String → Option Nat) (cm : String → Option String)
    (dbErr : Nat → Option String) :
    ∀ (l : List Row) (k : Nat),
      (∀ i (h : i < l.length),
          rowSuffix categories categoryMap cm dbErr (k + i) (l.get ⟨i, h⟩) ≠ none) →
      (processRowsAux categories categoryMap cm dbErr k l).2 = []
      ∧ (processRowsAux categories categoryMap cm dbErr k l).1.length = l.length
      ∧ ∀ j, j < (processRowsAux categories categoryMap cm dbErr k l).1.length →
          ∃ s, (processRowsAux categories categoryMap cm dbErr k l).1.getD j ""
                = "Row " ++ toString (k + j + 2) ++ ": " ++ s := by
  intro l
  induction l with
  | nil =>
    intro k _
    refine ⟨rfl, rfl, ?_⟩
    intro j hj
    exact absurd hj (by simp [processRowsAux])
  | cons x xs ih =>
    intro k hall
    have h0 : rowSuffix categories categoryMap cm dbErr k x ≠ none := by
      have := hall 0 (by simp)
      simpa using this
    obtain ⟨s0, hs0⟩ : ∃ s, rowSuffix categories categoryMap cm dbErr k x = some s := by
      cases hsx : rowSuffix categories categoryMap cm dbErr k x with
      | none => exact absurd hsx h0
      | some s => exact ⟨s, rfl⟩
    have htail := ih (k + 1) (by
      intro i h
      have := hall (i + 1) (by simpa using Nat.succ_lt_succ h)
      have harith : k + (i + 1) = k + 1 + i := by omega
      rw [harith] at this
      simpa using this)
    obtain ⟨htail2, htaillen, htailget⟩ := htail
    have hstep1 : (processRowsAux categories categoryMap cm dbErr k (x :: xs)).1
        = ("Row " ++ toString (k + 2) ++ ": " ++ s0)
          :: (processRowsAux categories categoryMap cm dbErr (k + 1) xs).1 := by
      simp only [processRowsAux, hs0]
    have hstep2 : (processRowsAux categories categoryMap cm dbErr k (x :: xs)).2
        = (processRowsAux categories categoryMap cm dbErr (k + 1) xs).2 := by
      simp only [processRowsAux, hs0]
    refine ⟨?_, ?_, ?_⟩
    · rw [hstep2]
      exact htail2
    · rw [hstep1]
      simp [htaillen]
    · intro j hj
      rw [hstep1] at hj ⊢
      match j with
      | 0 => exact ⟨s0, by simp⟩
      | j + 1 =>
        rw [List.getD_cons_succ]
        obtain ⟨s, hs⟩ := htailget j (by simpa using Nat.lt_of_succ_lt_succ hj)
        refine ⟨s, ?_⟩
        rw [hs]
        have harith : k + 1 + j + 2 = k + (j + 1) + 2 := by omega
        rw [harith]

/-- C4: when every one of the `N ≥ 1` rows produces a row error, the
transaction is rolled back (the store keeps exactly its previously
committed rows), the import fails with the aggregate no-valid-products
error, the error list has exactly `N` entries in original row order, and
the entry at zero-based position `j` carries display row number `j + 2`
(numbers `2` through `N + 1`). -/
theorem c4_all_rows_error_rollback (categories : List Category)
    (products : List Row) (cm : String → Option String)
    (dbErr : Nat → Option String) (st : Store)
    (hcat : categories ≠ []) (hmiss : missingFields cm = []) (hne : products ≠ [])
    (hall : ∀ i (h : i < products.length),
        rowSuffix categories (buildCategoryMap categories) cm dbErr i
          (products.get ⟨i, h⟩) ≠ none) :
    processProducts categories products cm dbErr st
      = (Except.error
          (noValidMsg (processRows categories (buildCategoryMap categories) cm dbErr products).1),
         { committed := st.committed, pending := [] })
    ∧ (processRows categories (buildCategoryMap categories) cm dbErr products).1.length
        = products.length
    ∧ ∀ j, j < (processRows categories (buildCategoryMap categories) cm dbErr products).1.length →
        ∃ s, (processRows categories (buildCategoryMap categories) cm dbErr products).1.getD j ""
              = "Row " ++ toString (j + 2) ++ ": " ++ s := by
  have hmain := processRowsAux_all_error categories (buildCategoryMap categories) cm dbErr
    products 0 (by intro i h; simpa using hall i h)
  obtain ⟨hins, hlen, hget⟩ := hmain
  refine ⟨?_, hlen, ?_⟩
  · unfold processProducts
    rw [if_neg (fun h => hcat (List.length_eq_zero.mp h))]
    rw [if_neg (by simp [hmiss])]
    rw [if_neg (by unfold processRows; rw [hins]; simp)]
    rw [if_pos (by unfold processRows; rw [hlen])]
    rfl
  · intro j h
    have := hget j h
    simpa using this

/-- C4 witness: two rows, both with invalid price; rollback, two errors,
display numbers 2 and 3. -/
theorem c4_witness :
    processProducts wCats [wRowBadPrice, wRowBadPrice] wCm wDbOk wStore
      = (Except.error
          (noValidMsg
            (processRows wCats (buildCategoryMap wCats) wCm wDbOk [wRowBadPrice, wRowBadPrice]).1),
         { committed := [], pending := [] })
    ∧ (processRows wCats (buildCategoryMap wCats) wCm wDbOk [wRowBadPrice, wRowBadPrice]).1.length
        = ([wRowBadPrice, wRowBadPrice] : List Row).length
    ∧ ∀ j, j < (processRows wCats (buildCategoryMap wCats) wCm wDbOk
          [wRowBadPrice, wRowBadPrice]).1.length →
        ∃ s, (processRows wCats (buildCategoryMap wCats) wCm wDbOk
                [wRowBadPrice, wRowBadPrice]).1.getD j ""
              = "Row " ++ toString (j + 2) ++ ": " ++ s :=
  c4_all_rows_error_rollback wCats [wRowBadPrice, wRowBadPrice] wCm wDbOk wStore
    (by decide) (by decide) (List.cons_ne_nil _ _) (by decide)

/-- Any identifier the category map returns is the identifier of some
category in the snapshot. -/
theorem buildCategoryMap_mem (categories : List Category) (key : String) (n : Nat)
    (h : buildCategoryMap categories key = some n) :
    ∃ c ∈ categories, c.category_id = n := by
  unfold buildCategoryMap at h
  rw [foldl_overwrite (fun c => jsToLower c.category_name = key)
    (fun c => c.category_id) categories none] at h
  cases hfind : categories.reverse.find?
      (fun c => decide (jsToLower c.category_name = key)) with
  | none => rw [hfind] at h; exact absurd h (by simp)
  | some c =>
    rw [hfind] at h
    have hmem : c ∈ categories := by
      have := List.mem_of_find?_eq_some hfind
      simpa using this
    exact ⟨c, hmem, by simpa using h⟩

/-- C7: on a snapshot whose identifiers are all nonzero (as
database-assigned serials are), the row validation of the loop agrees
with the spec's RowValidator: the four checks applied in fixed order,
short-circuiting at the first failure so each row yields at most one
error, with the unresolved-category error naming the offending category
and enumerating all existing category names. -/
theorem c7_validation_order (categories : List Category) (rec : Extracted)
    (hids : ∀ c ∈ categories, c.category_id ≠ 0) :
    validateRow categories (buildCategoryMap categories) rec
      = specValidate (buildCategoryMap categories) categories rec := by
  unfold validateRow specValidate
  have h4 : jsFalsyNat (buildCategoryMap categories (jsToLower rec.categoryName))
      = (buildCategoryMap categories (jsToLower rec.categoryName)).isNone := by
    cases hm : buildCategoryMap categories (jsToLower rec.categoryName) with
    | none => rfl
    | some n =>
      obtain ⟨c, hc, hcn⟩ := buildCategoryMap_mem categories _ n hm
      have hn : n ≠ 0 := hcn ▸ hids c hc
      simp [jsFalsyNat, hn]
  rw [h4]

/-- C7 witness: the spec's own example — category `Electronics` requested
while only `Tools` exists: the error names `Electronics` and lists
`Tools`. -/
theorem c7_witness :
    validateRow wCats (buildCategoryMap wCats)
        { productName := "TV", categoryName := "Electronics",
          price := some 10, stock := some 5 }
      = specValidate (buildCategoryMap wCats) wCats
        { productName := "TV", categoryName := "Electronics",
          price := some 10, stock := some 5 }
    ∧ validateRow wCats (buildCategoryMap wCats)
        { productName := "TV", categoryName := "Electronics",
          price := some 10, stock := some 5 }
      = some "Category \"Electronics\" does not exist. Available categories: Tools" :=
  ⟨c7_validation_order wCats
      { productName := "TV", categoryName := "Electronics",
        price := some 10, stock := some 5 } (by decide),
    by decide⟩

/-- C8: a numeric price/stock cell is used as-is; any other cell has its
string representation stripped to `[0-9.-]` (price) or `[0-9-]` (stock)
and the remainder parsed, with an empty stripped string parsing to `0`
and a parse failure yielding the `NaN` sentinel (`none`) rather than an
exception. -/
theorem c8_numeric_extraction (cm : String → Option String) (row : Row) :
    (∀ q, rowGet row (cm "price") = CellValue.num q → getPrice cm row = some q)
    ∧ (∀ q, rowGet row (cm "stock") = CellValue.num q → getStock cm row = some q)
    ∧ ((∀ q, rowGet row (cm "price") ≠ CellValue.num q) →
        getPrice cm row
          = jsParseFloat (jsOrStr (stripPrice (jsToString (rowGet row (cm "price")))) "0"))
    ∧ ((∀ q, rowGet row (cm "stock") ≠ CellValue.num q) →
        getStock cm row
          = (jsParseInt (jsOrStr (stripStock (jsToString (rowGet row (cm "stock")))) "0")).map
              (fun i => (i : ℚ)))
    ∧ ((∀ q, rowGet row (cm "price") ≠ CellValue.num q) →
        stripPrice (jsToString (rowGet row (cm "price"))) = "" → getPrice cm row = some 0)
    ∧ ((∀ q, rowGet row (cm "stock") ≠ CellValue.num q) →
        stripStock (jsToString (rowGet row (cm "stock"))) = "" → getStock cm row = some 0)
    ∧ ((∀ q, rowGet row (cm "price") ≠ CellValue.num q) →
        jsParseFloat (jsOrStr (stripPrice (jsToString (rowGet row (cm "price")))) "0") = none →
        getPrice cm row = none)
    ∧ ((∀ q, rowGet row (cm "stock") ≠ CellValue.num q) →
        jsParseInt (jsOrStr (stripStock (jsToString (rowGet row (cm "stock")))) "0") = none →
        getStock cm row = none) := by
  have hp1 : ∀ q, rowGet row (cm "price") = CellValue.num q → getPrice cm row = some q := by
    intro q hq
    unfold getPrice
    rw [hq]
  have hs1 : ∀ q, rowGet row (cm "stock") = CellValue.num q → getStock cm row = some q := by
    intro q hq
    unfold getStock
    rw [hq]
  have hp2 : (∀ q, rowGet row (cm "price") ≠ CellValue.num q) →
      getPrice cm row
        = jsParseFloat (jsOrStr (stripPrice (jsToString (rowGet row (cm "price")))) "0") := by
    intro hne
    unfold getPrice
    cases hv : rowGet row (cm "price") with
    | num q => exact absurd hv (hne q)
    | str s => rfl
    | boolv b => rfl
    | empty => rfl
  have hs2 : (∀ q, rowGet row (cm "stock") ≠ CellValue.num q) →
      getStock cm row
        = (jsParseInt (jsOrStr (stripStock (jsToString (rowGet row (cm "stock")))) "0")).map
            (fun i => (i : ℚ)) := by
    intro hne
    unfold getStock
    cases hv : rowGet row (cm "stock") with
    | num q => exact absurd hv (hne q)
    | str s => rfl
    | boolv b => rfl
    | empty => rfl
  refine ⟨hp1, hs1, hp2, hs2, ?_, ?_, ?_, ?_⟩
  · intro hne hempty
    rw [hp2 hne, hempty]
    decide
  · intro hne hempty
    rw [hs2 hne, hempty]
    decide
  · intro hne hnone
    rw [hp2 hne, hnone]
  · intro hne hnone
    rw [hs2 hne, hnone]
    rfl

/-- C8 witness: decorated numeric strings — price `"$15 usd"` strips to
`"15"` and parses to `15`; stock `" 7 pcs"` strips to `"7"` and parses
to `7`. -/
theorem c8_witness :
    getPrice wCm wRowPriceStr = some 15
    ∧ getStock wCm wRowPriceStr = some 7
    ∧ stripPrice "$15 usd" = "15"
    ∧ stripStock " 7 pcs" = "7"
    ∧ getPrice wCm wRowPriceStr
        = jsParseFloat (jsOrStr (stripPrice (jsToString (rowGet wRowPriceStr (wCm "price")))) "0") :=
  ⟨by decide, by decide, by decide, by decide,
    (c8_numeric_extraction wCm wRowPriceStr).2.2.1
      (by intro q h; exact CellValue.noConfusion h)⟩

/-- C10: a falsy `product_name` or `category_name` cell — absent, empty,
the number `0`, or the boolean `false` — extracts to the empty string
(not to that value's string representation), so the row is rejected with
the missing-name error. -/
theorem c10_falsy_text_rejected (categories : List Category)
    (categoryMap : String → Option Nat) (cm : String → Option String) (row : Row)
    (hfalsy : jsTruthy (rowGet row (cm "product_name")) = false
            ∨ jsTruthy (rowGet row (cm "category_name")) = false) :
    (jsTruthy (rowGet row (cm "product_name")) = false → getProductName cm row = "")
    ∧ (jsTruthy (rowGet row (cm "category_name")) = false → getCategoryName cm row = "")
    ∧ validateRow categories categoryMap (extractRecord cm row)
        = some "Missing product_name or category_name" := by
  have hpn : jsTruthy (rowGet row (cm "product_name")) = false →
      getProductName cm row = "" := by
    intro h
    unfold getProductName jsOr
    rw [h]
    rfl
  have hcn : jsTruthy (rowGet row (cm "category_name")) = false →
      getCategoryName cm row = "" := by
    intro h
    unfold getCategoryName jsOr
    rw [h]
    rfl
  refine ⟨hpn, hcn, ?_⟩
  have hcond : (extractRecord cm row).productName = ""
      ∨ (extractRecord cm row).categoryName = "" := by
    rcases hfalsy with h | h
    · exact Or.inl (hpn h)
    · exact Or.inr (hcn h)
  unfold validateRow
  rw [if_pos hcond]

/-- C10 witness: the product-name cell holds the number `0`, whose string
representation is `"0"`, yet extraction yields `""` and the row is
rejected. -/
theorem c10_witness :
    ((jsTruthy (rowGet wRowZeroName (wCm "product_name")) = false →
        getProductName wCm wRowZeroName = "")
      ∧ (jsTruthy (rowGet wRowZeroName (wCm "category_name")) = false →
        getCategoryName wCm wRowZeroName = "")
      ∧ validateRow wCats (buildCategoryMap wCats) (extractRecord wCm wRowZeroName)
          = some "Missing product_name or category_name")
    ∧ jsToString (CellValue.num 0) = "0"
    ∧ ("0" : String) ≠ "" :=
  ⟨c10_falsy_text_rejected wCats (buildCategoryMap wCats) wCm wRowZeroName
      (Or.inl (by decide)),
    by decide, by decide⟩
